import Mathlib

/-!
Shallow embedding of the Survivor options strategy core
(`src/strategy/survivor.py`).  Prices, gaps and premiums are rationals;
Python's `round(x, 0)` (banker's rounding, half to even) is `pyRound`,
Python's `int()` on a nonnegative quotient (truncation toward zero) is
`pyInt`.  The broker is a record of the three capabilities the core calls
(`find_instrument`, `get_quote`, `place_order`); the two unbounded `while`
loops are fuel-indexed: an outer `none` means the loop did not finish
within the given fuel.
-/

/-- Python `round(x, 0)`: round to the nearest integer, ties to even. -/
def pyRound (x : ℚ) : ℤ :=
  if x - ⌊x⌋ < 1/2 then ⌊x⌋
  else if 1/2 < x - ⌊x⌋ then ⌊x⌋ + 1
  else if ⌊x⌋ % 2 = 0 then ⌊x⌋ else ⌊x⌋ + 1

/-- Python `int(x)`: truncation toward zero. -/
def pyInt (x : ℚ) : ℤ :=
  if 0 ≤ x then ⌊x⌋ else ⌈x⌉

/-- The configuration values (`strat_var_*`) the core reads. -/
structure Config where
  pe_gap : ℚ
  ce_gap : ℚ
  pe_symbol_gap : ℚ
  ce_symbol_gap : ℚ
  pe_reset_gap : ℚ
  ce_reset_gap : ℚ
  pe_quantity : ℤ
  ce_quantity : ℤ
  min_price_to_sell : ℚ
  sell_multiplier_threshold : ℚ
  nifty_lot_size : ℚ
  deriving Repr, DecidableEq

/-- The per-strategy mutable state: the two reference prices
(`nifty_pe_last_value`, `nifty_ce_last_value`) and the two reset flags
(`pe_reset_gap_flag`, `ce_reset_gap_flag`, kept as 0/1 in the source). -/
structure State where
  nifty_pe_last_value : ℚ
  nifty_ce_last_value : ℚ
  pe_reset_gap_flag : Bool
  ce_reset_gap_flag : Bool
  deriving Repr, DecidableEq

/-- The slice of a broker instrument the core reads. -/
structure Instrument where
  tradingsymbol : String
  deriving Repr, DecidableEq

/-- The broker capabilities the core calls.  `find_instrument` takes the
option type, the current price and the gap; `get_quote` returns the last
price for a trading symbol; `place_order` returns an order id, `-1`
meaning failure. -/
structure Broker where
  find_instrument : String → ℚ → ℚ → Option Instrument
  get_quote : String → ℚ
  place_order : String → ℤ → ℤ

/-- An order as recorded with the order tracker by `_place_order`. -/
structure Order where
  order_id : ℤ
  symbol : String
  quantity : ℤ
  deriving Repr, DecidableEq

/-- `_place_order`: place the order with the broker; on the `-1` failure
sentinel log and return without recording, otherwise record the order.
The returned list is what got recorded with the order tracker. -/
def place_order (b : Broker) (symbol : String) (quantity : ℤ) : List Order :=
  let order_id := b.place_order symbol quantity
  if order_id = -1 then []
  else [{ order_id := order_id, symbol := symbol, quantity := quantity }]

/-- `_check_sell_multiplier_breach`: `True` iff the multiplier exceeds
`strat_var_sell_multiplier_threshold`. -/
def check_sell_multiplier_breach (cfg : Config) (sell_multiplier : ℤ) : Bool :=
  decide (cfg.sell_multiplier_threshold < (sell_multiplier : ℚ))

/-- `price_diff` of the PE branch: `round(current_price - nifty_pe_last_value, 0)`. -/
def pe_price_diff (s : State) (current_price : ℚ) : ℚ :=
  (pyRound (current_price - s.nifty_pe_last_value) : ℚ)

/-- `price_diff` of the CE branch: `round(nifty_ce_last_value - current_price, 0)`. -/
def ce_price_diff (s : State) (current_price : ℚ) : ℚ :=
  (pyRound (s.nifty_ce_last_value - current_price) : ℚ)

/-- The PE trigger condition of `_handle_pe_trade`: the early return when
`current_price <= nifty_pe_last_value` has not fired and
`price_diff > strat_var_pe_gap`. -/
def pe_trigger_fired (cfg : Config) (s : State) (current_price : ℚ) : Bool :=
  if current_price ≤ s.nifty_pe_last_value then false
  else decide (cfg.pe_gap < pe_price_diff s current_price)

/-- The CE trigger condition of `_handle_ce_trade`. -/
def ce_trigger_fired (cfg : Config) (s : State) (current_price : ℚ) : Bool :=
  if s.nifty_ce_last_value ≤ current_price then false
  else decide (cfg.ce_gap < ce_price_diff s current_price)

/-- `sell_multiplier = int(price_diff / strat_var_pe_gap)`. -/
def pe_sell_multiplier (cfg : Config) (s : State) (current_price : ℚ) : ℤ :=
  pyInt (pe_price_diff s current_price / cfg.pe_gap)

/-- `sell_multiplier = int(price_diff / strat_var_ce_gap)`. -/
def ce_sell_multiplier (cfg : Config) (s : State) (current_price : ℚ) : ℤ :=
  pyInt (ce_price_diff s current_price / cfg.ce_gap)

/-- The `while True` strike-search loop shared by both handlers: look an
instrument up at the current gap (`none` from the lookup aborts the search
with no result), accept it when its quoted premium is at least
`min_price_to_sell`, otherwise decrement the gap by the lot size and
retry.  Fuel-indexed: the outer `none` means the loop did not finish. -/
def strikeSearch (lookup : ℚ → Option Instrument) (quote : Instrument → ℚ)
    (min_price lot_size : ℚ) : ℕ → ℚ → Option (Option Instrument)
  | 0, _ => none
  | fuel + 1, gap =>
    match lookup gap with
    | none => some none
    | some inst =>
      if quote inst < min_price then
        strikeSearch lookup quote min_price lot_size fuel (gap - lot_size)
      else some (some inst)

/-- `_handle_pe_trade`: early return when price has not moved up past the
reference; on `price_diff > pe_gap` compute the multiplier, return
unchanged on a risk breach, otherwise advance the reference by
`pe_gap * sell_multiplier`, then run the strike search from
`pe_symbol_gap`; when a strike is found place the order (recording it
unless the broker signals failure) and set `pe_reset_gap_flag = 1`.
Returns the new state and the recorded orders; `none` = the strike-search
loop did not finish within the fuel. -/
def handle_pe_trade (cfg : Config) (b : Broker) (fuel : ℕ) (s : State)
    (current_price : ℚ) : Option (State × List Order) :=
  if current_price ≤ s.nifty_pe_last_value then some (s, [])
  else
    if cfg.pe_gap < pe_price_diff s current_price then
      let sell_multiplier := pe_sell_multiplier cfg s current_price
      if check_sell_multiplier_breach cfg sell_multiplier then some (s, [])
      else
        let s1 : State :=
          { s with nifty_pe_last_value :=
              s.nifty_pe_last_value + cfg.pe_gap * sell_multiplier }
        let total_quantity := sell_multiplier * cfg.pe_quantity
        match strikeSearch (fun g => b.find_instrument "PE" current_price g)
            (fun inst => b.get_quote inst.tradingsymbol)
            cfg.min_price_to_sell cfg.nifty_lot_size fuel cfg.pe_symbol_gap with
        | none => none
        | some none => some (s1, [])
        | some (some inst) =>
          some ({ s1 with pe_reset_gap_flag := true },
            place_order b inst.tradingsymbol total_quantity)
    else some (s, [])

/-- `_handle_ce_trade`: the mirror image of `_handle_pe_trade` for the CE
side (downward move, reference decreased by `ce_gap * sell_multiplier`). -/
def handle_ce_trade (cfg : Config) (b : Broker) (fuel : ℕ) (s : State)
    (current_price : ℚ) : Option (State × List Order) :=
  if s.nifty_ce_last_value ≤ current_price then some (s, [])
  else
    if cfg.ce_gap < ce_price_diff s current_price then
      let sell_multiplier := ce_sell_multiplier cfg s current_price
      if check_sell_multiplier_breach cfg sell_multiplier then some (s, [])
      else
        let s1 : State :=
          { s with nifty_ce_last_value :=
              s.nifty_ce_last_value - cfg.ce_gap * sell_multiplier }
        let total_quantity := sell_multiplier * cfg.ce_quantity
        match strikeSearch (fun g => b.find_instrument "CE" current_price g)
            (fun inst => b.get_quote inst.tradingsymbol)
            cfg.min_price_to_sell cfg.nifty_lot_size fuel cfg.ce_symbol_gap with
        | none => none
        | some none => some (s1, [])
        | some (some inst) =>
          some ({ s1 with ce_reset_gap_flag := true },
            place_order b inst.tradingsymbol total_quantity)
    else some (s, [])

/-- `_reset_reference_values`: relocate the PE reference to
`current_price + pe_reset_gap` when `(nifty_pe_last_value - current_price)
> pe_reset_gap` and `pe_reset_gap_flag` is set, then the CE mirror. -/
def reset_reference_values (cfg : Config) (s : State) (current_price : ℚ) :
    State :=
  let s1 :=
    if cfg.pe_reset_gap < s.nifty_pe_last_value - current_price ∧
        s.pe_reset_gap_flag then
      { s with nifty_pe_last_value := current_price + cfg.pe_reset_gap }
    else s
  if cfg.ce_reset_gap < current_price - s1.nifty_ce_last_value ∧
      s1.ce_reset_gap_flag then
    { s1 with nifty_ce_last_value := current_price - cfg.ce_reset_gap }
  else s1

/-- `on_ticks_update`: one tick = PE handler, then CE handler, then the
reset pass, all on the same `current_price`.  Returns the new state and
the orders recorded during the tick. -/
def on_ticks_update (cfg : Config) (b : Broker) (fuel : ℕ) (s : State)
    (current_price : ℚ) : Option (State × List Order) :=
  match handle_pe_trade cfg b fuel s current_price with
  | none => none
  | some (s1, orders1) =>
    match handle_ce_trade cfg b fuel s1 current_price with
    | none => none
    | some (s2, orders2) =>
      some (reset_reference_values cfg s2 current_price, orders1 ++ orders2)

/-- Run the strategy over a sequence of tick prices. -/
def run_ticks (cfg : Config) (b : Broker) (fuel : ℕ) :
    State → List ℚ → Option State
  | s, [] => some s
  | s, p :: ps =>
    match on_ticks_update cfg b fuel s p with
    | none => none
    | some (s1, _) => run_ticks cfg b fuel s1 ps

/-! ### Arithmetic facts about the Python rounding primitives -/

theorem pyRound_le (x : ℚ) : (pyRound x : ℚ) ≤ x + 1/2 := by
  unfold pyRound
  split
  · exact le_trans (Int.floor_le x) (by linarith)
  · split
    · push_cast
      linarith
    · split
      · exact le_trans (Int.floor_le x) (by linarith)
      · push_cast
        linarith

theorem pyRound_intCast (n : ℤ) : pyRound (n : ℚ) = n := by
  unfold pyRound
  rw [Int.floor_intCast]
  norm_num

theorem pyInt_eq_floor (x : ℚ) (h : 0 ≤ x) : pyInt x = ⌊x⌋ := by
  unfold pyInt
  rw [if_pos h]

theorem pyInt_div_ge_one (rd gap : ℚ) (hg : 0 < gap) (h : gap < rd) :
    1 ≤ pyInt (rd / gap) := by
  have hq : (1 : ℚ) ≤ rd / gap := by
    rw [le_div_iff₀ hg]
    linarith
  rw [pyInt_eq_floor _ (le_trans zero_le_one hq)]
  exact_mod_cast Int.le_floor.mpr (by exact_mod_cast hq)

theorem pyInt_div_mul_le (rd gap : ℚ) (hg : 0 < gap) (h0 : 0 ≤ rd) :
    gap * (pyInt (rd / gap) : ℚ) ≤ rd := by
  rw [pyInt_eq_floor _ (div_nonneg h0 (le_of_lt hg))]
  calc gap * (⌊rd / gap⌋ : ℚ) ≤ gap * (rd / gap) :=
        mul_le_mul_of_nonneg_left (Int.floor_le _) (le_of_lt hg)
    _ = rd := by field_simp

/-! ### Characterization lemmas for the handlers -/

/-- Rejected PE trigger: the handler returns with the state fully
unchanged and no order — the reference advance is guarded behind the risk
check in the source. -/
theorem handle_pe_trade_reject (cfg : Config) (b : Broker) (fuel : ℕ)
    (s : State) (p : ℚ) (h1 : ¬ p ≤ s.nifty_pe_last_value)
    (h2 : cfg.pe_gap < pe_price_diff s p)
    (h3 : check_sell_multiplier_breach cfg (pe_sell_multiplier cfg s p) = true) :
    handle_pe_trade cfg b fuel s p = some (s, []) := by
  unfold handle_pe_trade
  rw [if_neg h1, if_pos h2, if_pos h3]

/-- Rejected CE trigger: state fully unchanged, no order. -/
theorem handle_ce_trade_reject (cfg : Config) (b : Broker) (fuel : ℕ)
    (s : State) (p : ℚ) (h1 : ¬ s.nifty_ce_last_value ≤ p)
    (h2 : cfg.ce_gap < ce_price_diff s p)
    (h3 : check_sell_multiplier_breach cfg (ce_sell_multiplier cfg s p) = true) :
    handle_ce_trade cfg b fuel s p = some (s, []) := by
  unfold handle_ce_trade
  rw [if_neg h1, if_pos h2, if_pos h3]


/-- Accepted PE trigger: whatever the strike search and order placement
do, every state the handler can return carries the reference advanced by
exactly `pe_gap * sell_multiplier`, and the CE side untouched. -/
theorem handle_pe_trade_advance (cfg : Config) (b : Broker) (fuel : ℕ)
    (s : State) (p : ℚ) (s2 : State) (orders : List Order)
    (h1 : ¬ p ≤ s.nifty_pe_last_value)
    (h2 : cfg.pe_gap < pe_price_diff s p)
    (h3 : check_sell_multiplier_breach cfg (pe_sell_multiplier cfg s p) = false)
    (hres : handle_pe_trade cfg b fuel s p = some (s2, orders)) :
    s2.nifty_pe_last_value =
      s.nifty_pe_last_value + cfg.pe_gap * pe_sell_multiplier cfg s p ∧
    s2.nifty_ce_last_value = s.nifty_ce_last_value ∧
    s2.ce_reset_gap_flag = s.ce_reset_gap_flag := by
  unfold handle_pe_trade at hres
  rw [if_neg h1, if_pos h2] at hres
  simp only [h3, Bool.false_eq_true, if_false] at hres
  split at hres
  · exact Option.noConfusion hres
  · simp only [Option.some.injEq, Prod.mk.injEq] at hres
    obtain ⟨hs, _⟩ := hres
    rw [← hs]
    exact ⟨rfl, rfl, rfl⟩
  · simp only [Option.some.injEq, Prod.mk.injEq] at hres
    obtain ⟨hs, _⟩ := hres
    rw [← hs]
    exact ⟨rfl, rfl, rfl⟩

/-- Accepted CE trigger: every state the handler can return carries the
reference decreased by exactly `ce_gap * sell_multiplier`, PE side
untouched. -/
theorem handle_ce_trade_advance (cfg : Config) (b : Broker) (fuel : ℕ)
    (s : State) (p : ℚ) (s2 : State) (orders : List Order)
    (h1 : ¬ s.nifty_ce_last_value ≤ p)
    (h2 : cfg.ce_gap < ce_price_diff s p)
    (h3 : check_sell_multiplier_breach cfg (ce_sell_multiplier cfg s p) = false)
    (hres : handle_ce_trade cfg b fuel s p = some (s2, orders)) :
    s2.nifty_ce_last_value =
      s.nifty_ce_last_value - cfg.ce_gap * ce_sell_multiplier cfg s p ∧
    s2.nifty_pe_last_value = s.nifty_pe_last_value ∧
    s2.pe_reset_gap_flag = s.pe_reset_gap_flag := by
  unfold handle_ce_trade at hres
  rw [if_neg h1, if_pos h2] at hres
  simp only [h3, Bool.false_eq_true, if_false] at hres
  split at hres
  · exact Option.noConfusion hres
  · simp only [Option.some.injEq, Prod.mk.injEq] at hres
    obtain ⟨hs, _⟩ := hres
    rw [← hs]
    exact ⟨rfl, rfl, rfl⟩
  · simp only [Option.some.injEq, Prod.mk.injEq] at hres
    obtain ⟨hs, _⟩ := hres
    rw [← hs]
    exact ⟨rfl, rfl, rfl⟩

/-- No PE trigger (price at or below the reference, or rounded difference
within the gap): the handler leaves everything unchanged. -/
theorem handle_pe_trade_no_fire (cfg : Config) (b : Broker) (fuel : ℕ)
    (s : State) (p : ℚ) (h : pe_trigger_fired cfg s p = false) :
    handle_pe_trade cfg b fuel s p = some (s, []) := by
  unfold pe_trigger_fired at h
  unfold handle_pe_trade
  split at h
  · rw [if_pos (by assumption)]
  · rw [if_neg (by assumption)]
    simp only [decide_eq_false_iff_not] at h
    rw [if_neg h]

/-- No CE trigger: the handler leaves everything unchanged. -/
theorem handle_ce_trade_no_fire (cfg : Config) (b : Broker) (fuel : ℕ)
    (s : State) (p : ℚ) (h : ce_trigger_fired cfg s p = false) :
    handle_ce_trade cfg b fuel s p = some (s, []) := by
  unfold ce_trigger_fired at h
  unfold handle_ce_trade
  split at h
  · rw [if_pos (by assumption)]
  · rw [if_neg (by assumption)]
    simp only [decide_eq_false_iff_not] at h
    rw [if_neg h]

/-- Every outcome of `_handle_pe_trade`: untouched state, advanced
reference with no order (no instrument found / risk breach / no fire), or
advanced reference with the flag set and the order-placement record. -/
theorem handle_pe_trade_cases (cfg : Config) (b : Broker) (fuel : ℕ)
    (s : State) (p : ℚ) (s2 : State) (orders : List Order)
    (hres : handle_pe_trade cfg b fuel s p = some (s2, orders)) :
    (s2 = s ∧ orders = []) ∨
    (s2 = { s with nifty_pe_last_value :=
        s.nifty_pe_last_value + cfg.pe_gap * pe_sell_multiplier cfg s p } ∧
      orders = []) ∨
    (∃ inst : Instrument, s2 = { s with
        nifty_pe_last_value :=
          s.nifty_pe_last_value + cfg.pe_gap * pe_sell_multiplier cfg s p,
        pe_reset_gap_flag := true } ∧
      orders = place_order b inst.tradingsymbol
        (pe_sell_multiplier cfg s p * cfg.pe_quantity)) := by
  simp only [handle_pe_trade] at hres
  split at hres
  · simp only [Option.some.injEq, Prod.mk.injEq] at hres
    exact Or.inl ⟨hres.1.symm, hres.2.symm⟩
  · split at hres
    · split at hres
      · simp only [Option.some.injEq, Prod.mk.injEq] at hres
        exact Or.inl ⟨hres.1.symm, hres.2.symm⟩
      · split at hres
        · exact Option.noConfusion hres
        · simp only [Option.some.injEq, Prod.mk.injEq] at hres
          exact Or.inr (Or.inl ⟨hres.1.symm, hres.2.symm⟩)
        · simp only [Option.some.injEq, Prod.mk.injEq] at hres
          exact Or.inr (Or.inr ⟨_, hres.1.symm, hres.2.symm⟩)
    · simp only [Option.some.injEq, Prod.mk.injEq] at hres
      exact Or.inl ⟨hres.1.symm, hres.2.symm⟩

/-- Every outcome of `_handle_ce_trade` (mirror of the PE case lemma). -/
theorem handle_ce_trade_cases (cfg : Config) (b : Broker) (fuel : ℕ)
    (s : State) (p : ℚ) (s2 : State) (orders : List Order)
    (hres : handle_ce_trade cfg b fuel s p = some (s2, orders)) :
    (s2 = s ∧ orders = []) ∨
    (s2 = { s with nifty_ce_last_value :=
        s.nifty_ce_last_value - cfg.ce_gap * ce_sell_multiplier cfg s p } ∧
      orders = []) ∨
    (∃ inst : Instrument, s2 = { s with
        nifty_ce_last_value :=
          s.nifty_ce_last_value - cfg.ce_gap * ce_sell_multiplier cfg s p,
        ce_reset_gap_flag := true } ∧
      orders = place_order b inst.tradingsymbol
        (ce_sell_multiplier cfg s p * cfg.ce_quantity)) := by
  simp only [handle_ce_trade] at hres
  split at hres
  · simp only [Option.some.injEq, Prod.mk.injEq] at hres
    exact Or.inl ⟨hres.1.symm, hres.2.symm⟩
  · split at hres
    · split at hres
      · simp only [Option.some.injEq, Prod.mk.injEq] at hres
        exact Or.inl ⟨hres.1.symm, hres.2.symm⟩
      · split at hres
        · exact Option.noConfusion hres
        · simp only [Option.some.injEq, Prod.mk.injEq] at hres
          exact Or.inr (Or.inl ⟨hres.1.symm, hres.2.symm⟩)
        · simp only [Option.some.injEq, Prod.mk.injEq] at hres
          exact Or.inr (Or.inr ⟨_, hres.1.symm, hres.2.symm⟩)
    · simp only [Option.some.injEq, Prod.mk.injEq] at hres
      exact Or.inl ⟨hres.1.symm, hres.2.symm⟩

/-- Neither handler ever clears a reset flag. -/
theorem handle_pe_trade_flag_mono (cfg : Config) (b : Broker) (fuel : ℕ)
    (s : State) (p : ℚ) (s2 : State) (orders : List Order)
    (hres : handle_pe_trade cfg b fuel s p = some (s2, orders)) :
    (s.pe_reset_gap_flag = true → s2.pe_reset_gap_flag = true) ∧
    (s.ce_reset_gap_flag = true → s2.ce_reset_gap_flag = true) := by
  rcases handle_pe_trade_cases cfg b fuel s p s2 orders hres with
    ⟨h, _⟩ | ⟨h, _⟩ | ⟨inst, h, _⟩ <;> subst h
  · exact ⟨id, id⟩
  · exact ⟨id, id⟩
  · exact ⟨fun _ => rfl, id⟩

/-- Mirror of the flag monotonicity for the CE handler. -/
theorem handle_ce_trade_flag_mono (cfg : Config) (b : Broker) (fuel : ℕ)
    (s : State) (p : ℚ) (s2 : State) (orders : List Order)
    (hres : handle_ce_trade cfg b fuel s p = some (s2, orders)) :
    (s.pe_reset_gap_flag = true → s2.pe_reset_gap_flag = true) ∧
    (s.ce_reset_gap_flag = true → s2.ce_reset_gap_flag = true) := by
  rcases handle_ce_trade_cases cfg b fuel s p s2 orders hres with
    ⟨h, _⟩ | ⟨h, _⟩ | ⟨inst, h, _⟩ <;> subst h
  · exact ⟨id, id⟩
  · exact ⟨id, id⟩
  · exact ⟨id, fun _ => rfl⟩

/-- `_reset_reference_values` never touches either flag. -/
theorem reset_reference_values_flags (cfg : Config) (s : State) (p : ℚ) :
    (reset_reference_values cfg s p).pe_reset_gap_flag = s.pe_reset_gap_flag ∧
    (reset_reference_values cfg s p).ce_reset_gap_flag = s.ce_reset_gap_flag := by
  simp only [reset_reference_values]
  split <;> split <;> exact ⟨rfl, rfl⟩

/-- Accepted PE trigger whose strike search returns an instrument: the
handler places the order, records whatever `_place_order` records, sets
the flag, and keeps the advanced reference. -/
theorem handle_pe_trade_found (cfg : Config) (b : Broker) (fuel : ℕ)
    (s : State) (p : ℚ) (inst : Instrument)
    (h1 : ¬ p ≤ s.nifty_pe_last_value)
    (h2 : cfg.pe_gap < pe_price_diff s p)
    (h3 : check_sell_multiplier_breach cfg (pe_sell_multiplier cfg s p) = false)
    (hsearch : strikeSearch (fun g => b.find_instrument "PE" p g)
        (fun inst => b.get_quote inst.tradingsymbol)
        cfg.min_price_to_sell cfg.nifty_lot_size fuel cfg.pe_symbol_gap =
      some (some inst)) :
    handle_pe_trade cfg b fuel s p =
      some ({ s with
          nifty_pe_last_value :=
            s.nifty_pe_last_value + cfg.pe_gap * pe_sell_multiplier cfg s p,
          pe_reset_gap_flag := true },
        place_order b inst.tradingsymbol
          (pe_sell_multiplier cfg s p * cfg.pe_quantity)) := by
  simp only [handle_pe_trade]
  rw [if_neg h1, if_pos h2]
  simp only [h3, Bool.false_eq_true, if_false]
  rw [hsearch]

/-- One tick never clears a reset flag. -/
theorem on_ticks_update_flag_mono (cfg : Config) (b : Broker) (fuel : ℕ)
    (s : State) (p : ℚ) (s2 : State) (orders : List Order)
    (hres : on_ticks_update cfg b fuel s p = some (s2, orders)) :
    (s.pe_reset_gap_flag = true → s2.pe_reset_gap_flag = true) ∧
    (s.ce_reset_gap_flag = true → s2.ce_reset_gap_flag = true) := by
  unfold on_ticks_update at hres
  split at hres
  · exact Option.noConfusion hres
  · rename_i sa ordersa hpe
    split at hres
    · exact Option.noConfusion hres
    · rename_i sb ordersb hce
      simp only [Option.some.injEq, Prod.mk.injEq] at hres
      obtain ⟨hs, _⟩ := hres
      have hmpe := handle_pe_trade_flag_mono cfg b fuel s p sa ordersa hpe
      have hmce := handle_ce_trade_flag_mono cfg b fuel sa p sb ordersb hce
      have hrst := reset_reference_values_flags cfg sb p
      rw [← hs]
      exact ⟨fun h => hrst.1.trans rfl ▸ (hrst.1 ▸ hmce.1 (hmpe.1 h)),
        fun h => hrst.2 ▸ hmce.2 (hmpe.2 h)⟩

/-- A whole tick sequence never clears a reset flag. -/
theorem run_ticks_flag_mono (cfg : Config) (b : Broker) (fuel : ℕ)
    (ps : List ℚ) (s : State) (s2 : State)
    (hres : run_ticks cfg b fuel s ps = some s2) :
    (s.pe_reset_gap_flag = true → s2.pe_reset_gap_flag = true) ∧
    (s.ce_reset_gap_flag = true → s2.ce_reset_gap_flag = true) := by
  induction ps generalizing s with
  | nil =>
    unfold run_ticks at hres
    simp only [Option.some.injEq] at hres
    subst hres
    exact ⟨id, id⟩
  | cons p ps ih =>
    unfold run_ticks at hres
    split at hres
    · exact Option.noConfusion hres
    · rename_i s1 orders1 htick
      have hm := on_ticks_update_flag_mono cfg b fuel s p s1 orders1 htick
      have hrec := ih s1 hres
      exact ⟨fun h => hrec.1 (hm.1 h), fun h => hrec.2 (hm.2 h)⟩

/-! ### Concrete fixtures for scenarios, counterexamples and witnesses -/

/-- The configuration of the spec's scenarios: gaps 25, strike distances
200, reset gaps 50, quantities 75, minimum premium 15, multiplier
threshold 3, lot size 50. -/
def cfgA : Config :=
  { pe_gap := 25, ce_gap := 25, pe_symbol_gap := 200, ce_symbol_gap := 200,
    pe_reset_gap := 50, ce_reset_gap := 50, pe_quantity := 75, ce_quantity := 75,
    min_price_to_sell := 15, sell_multiplier_threshold := 3, nifty_lot_size := 50 }

/-- Fresh state with both references at 24500 and both flags clear. -/
def stA : State :=
  { nifty_pe_last_value := 24500, nifty_ce_last_value := 24500,
    pe_reset_gap_flag := false, ce_reset_gap_flag := false }

/-- `stA` after a PE trade at tick 24530: reference advanced by one gap
and the PE flag set. -/
def stB : State :=
  { nifty_pe_last_value := 24525, nifty_ce_last_value := 24500,
    pe_reset_gap_flag := true, ce_reset_gap_flag := false }

/-- State with both references at 24000 and both flags clear. -/
def st3 : State :=
  { nifty_pe_last_value := 24000, nifty_ce_last_value := 24000,
    pe_reset_gap_flag := false, ce_reset_gap_flag := false }

/-- Armed PE side at 24550 (the reset scenario of the spec). -/
def stReset : State :=
  { nifty_pe_last_value := 24550, nifty_ce_last_value := 24000,
    pe_reset_gap_flag := true, ce_reset_gap_flag := false }

/-- Both sides armed, references 25 apart around 24500. -/
def stRun : State :=
  { nifty_pe_last_value := 24550, nifty_ce_last_value := 24450,
    pe_reset_gap_flag := true, ce_reset_gap_flag := true }

/-- Broker whose instrument lookup always comes back empty. -/
def brokerNone : Broker :=
  { find_instrument := fun _ _ _ => none, get_quote := fun _ => 0,
    place_order := fun _ _ => 1 }

/-- Broker that always finds instrument `X` quoting 20, but always
answers order placement with the `-1` failure sentinel. -/
def brokerFail : Broker :=
  { find_instrument := fun _ _ _ => some { tradingsymbol := "X" },
    get_quote := fun _ => 20, place_order := fun _ _ => -1 }

/-- The strike-search scenario lookup: instrument `A` at gap 200,
instrument `B` at gap 150, nothing elsewhere. -/
def lookupTwo : ℚ → Option Instrument := fun g =>
  if g = 200 then some { tradingsymbol := "A" }
  else if g = 150 then some { tradingsymbol := "B" } else none

/-- The strike-search scenario quotes: premium 10 for `A`, 20 for `B`. -/
def quoteTwo : Instrument → ℚ := fun inst =>
  if inst.tradingsymbol = "A" then 10 else 20

/-- A lookup that finds an instrument at every gap. -/
def lookupCheap : ℚ → Option Instrument := fun _ =>
  some { tradingsymbol := "X" }

/-- Quotes that stay below every sensible minimum premium. -/
def quoteCheap : Instrument → ℚ := fun _ => 10

/-! ### Claims -/

/-- C1 counterexample: with reference 24500, peGap 25, threshold 3 and
tick price 24600 the trigger fires with multiplier 4 and the RiskGate
rejects it, but — contrary to the claim — the handler returns with the
reference still at 24500, not advanced to 24600: the risk check precedes
the reference update in the source. -/
theorem C1_counterexample :
    pe_trigger_fired cfgA stA 24600 = true ∧
    pe_sell_multiplier cfgA stA 24600 = 4 ∧
    check_sell_multiplier_breach cfgA (pe_sell_multiplier cfgA stA 24600) = true ∧
    handle_pe_trade cfgA brokerNone 10 stA 24600 = some (stA, []) ∧
    stA.nifty_pe_last_value = 24500 ∧ (24500 : ℚ) ≠ 24600 := by
  refine ⟨?_, ?_, ?_, ?_, rfl, by norm_num⟩
  · norm_num [pe_trigger_fired, pe_price_diff, pyRound, cfgA, stA]
  · norm_num [pe_sell_multiplier, pe_price_diff, pyRound, pyInt, cfgA, stA]
  · norm_num [check_sell_multiplier_breach, pe_sell_multiplier, pe_price_diff,
      pyRound, pyInt, cfgA, stA]
  · norm_num [handle_pe_trade, pe_price_diff, pe_sell_multiplier, pyRound, pyInt,
      check_sell_multiplier_breach, cfgA, stA]

/-- C1 (amended): when a side's trigger fires but the RiskGate rejects the
multiplier, no order is placed and the armed flag is not set, and the
side's reference price is left unchanged — the advance never happens on a
rejected trigger, because the risk check runs before the reference
update. -/
theorem C1_reject_leaves_state (cfg : Config) (b : Broker) (fuel : ℕ)
    (s : State) (p : ℚ) :
    (¬ p ≤ s.nifty_pe_last_value → cfg.pe_gap < pe_price_diff s p →
      check_sell_multiplier_breach cfg (pe_sell_multiplier cfg s p) = true →
      handle_pe_trade cfg b fuel s p = some (s, [])) ∧
    (¬ s.nifty_ce_last_value ≤ p → cfg.ce_gap < ce_price_diff s p →
      check_sell_multiplier_breach cfg (ce_sell_multiplier cfg s p) = true →
      handle_ce_trade cfg b fuel s p = some (s, [])) :=
  ⟨fun h1 h2 h3 => handle_pe_trade_reject cfg b fuel s p h1 h2 h3,
   fun h1 h2 h3 => handle_ce_trade_reject cfg b fuel s p h1 h2 h3⟩

/-- C1 witness: the amended theorem applied to the spec's scenario
(reference 24500, peGap 25, threshold 3, tick 24600). -/
theorem C1_witness :
    handle_pe_trade cfgA brokerNone 10 stA 24600 = some (stA, []) :=
  (C1_reject_leaves_state cfgA brokerNone 10 stA 24600).1
    (by norm_num [stA])
    (by norm_num [pe_price_diff, pyRound, cfgA, stA])
    (by norm_num [check_sell_multiplier_breach, pe_sell_multiplier, pe_price_diff,
      pyRound, pyInt, cfgA, stA])

/-- C2 counterexample: broker `brokerFail` finds instrument `X` (premium
20) but returns the `-1` failure sentinel on order placement.  At tick
24530 from a fresh state the order is indeed not recorded (no orders come
back), but — contrary to the claim — the side does not stay unarmed: the
caller sets the PE reset flag unconditionally after `_place_order`
returns, so the state comes back with the flag set. -/
theorem C2_counterexample :
    stA.pe_reset_gap_flag = false ∧
    brokerFail.place_order "X" 75 = -1 ∧
    handle_pe_trade cfgA brokerFail 10 stA 24530 = some (stB, []) ∧
    stB.pe_reset_gap_flag = true := by
  refine ⟨rfl, rfl, ?_, rfl⟩
  norm_num [handle_pe_trade, pe_price_diff, pe_sell_multiplier, pyRound, pyInt,
    check_sell_multiplier_breach, strikeSearch, place_order, cfgA, stA, stB,
    brokerFail]

/-- C2 (amended): on the broker's `-1` failure sentinel `_place_order`
logs and returns without recording anything; however the enclosing PE
flow still sets the side's reset/armed flag after the failed placement,
so the side ends the tick armed (the reference advance is also kept). -/
theorem C2_order_fail_not_recorded_but_armed (cfg : Config) (b : Broker)
    (fuel : ℕ) (s : State) (p : ℚ) (inst : Instrument) :
    (∀ symbol quantity, b.place_order symbol quantity = -1 →
      place_order b symbol quantity = []) ∧
    (¬ p ≤ s.nifty_pe_last_value → cfg.pe_gap < pe_price_diff s p →
      check_sell_multiplier_breach cfg (pe_sell_multiplier cfg s p) = false →
      strikeSearch (fun g => b.find_instrument "PE" p g)
          (fun inst => b.get_quote inst.tradingsymbol)
          cfg.min_price_to_sell cfg.nifty_lot_size fuel cfg.pe_symbol_gap =
        some (some inst) →
      b.place_order inst.tradingsymbol
          (pe_sell_multiplier cfg s p * cfg.pe_quantity) = -1 →
      handle_pe_trade cfg b fuel s p =
        some ({ s with
            nifty_pe_last_value :=
              s.nifty_pe_last_value + cfg.pe_gap * pe_sell_multiplier cfg s p,
            pe_reset_gap_flag := true }, [])) := by
  constructor
  · intro symbol quantity h
    simp [place_order, h]
  · intro h1 h2 h3 hsearch hfail
    rw [handle_pe_trade_found cfg b fuel s p inst h1 h2 h3 hsearch]
    simp [place_order, hfail]

/-- C2 witness: the amended theorem applied to `brokerFail` at tick 24530
from a fresh state. -/
theorem C2_witness :
    handle_pe_trade cfgA brokerFail 10 stA 24530 = some (stB, []) := by
  have h := (C2_order_fail_not_recorded_but_armed cfgA brokerFail 10 stA 24530
      { tradingsymbol := "X" }).2
    (by norm_num [stA])
    (by norm_num [pe_price_diff, pyRound, cfgA, stA])
    (by norm_num [check_sell_multiplier_breach, pe_sell_multiplier, pe_price_diff,
      pyRound, pyInt, cfgA, stA])
    (by norm_num [strikeSearch, brokerFail, cfgA])
    (by norm_num [brokerFail])
  rw [h]
  norm_num [stA, stB, cfgA, pe_sell_multiplier, pe_price_diff, pyRound, pyInt]

/-- C3 counterexample: at reference 24000, peGap 25, threshold 3 and tick
24200 the gap threshold is exceeded (rounded difference 200, multiplier
8), yet the handler returns with the reference unchanged at 24000 rather
than increased by `peGap * multiplier`: a risk-rejected trigger performs
no reference advance at all. -/
theorem C3_counterexample :
    pe_trigger_fired cfgA st3 24200 = true ∧
    handle_pe_trade cfgA brokerNone 10 st3 24200 = some (st3, []) ∧
    st3.nifty_pe_last_value ≠
      st3.nifty_pe_last_value + cfgA.pe_gap * pe_sell_multiplier cfgA st3 24200 := by
  refine ⟨?_, ?_, ?_⟩
  · norm_num [pe_trigger_fired, pe_price_diff, pyRound, cfgA, st3]
  · norm_num [handle_pe_trade, pe_price_diff, pe_sell_multiplier, pyRound, pyInt,
      check_sell_multiplier_breach, cfgA, st3]
  · norm_num [pe_sell_multiplier, pe_price_diff, pyRound, pyInt, cfgA, st3]

/-- C3 (amended): for every PE trigger whose gap threshold is exceeded AND
whose multiplier passes the risk gate, the reference increases by exactly
`peGap * multiplier`, and it keeps that value in every state the handler
can return — no instrument found, order failed or trade executed — with
the CE side untouched; symmetric for CE with a decrease of
`ceGap * multiplier`. -/
theorem C3_advance_no_rollback (cfg : Config) (b : Broker) (fuel : ℕ)
    (s : State) (p : ℚ) (s2 : State) (orders : List Order) :
    (¬ p ≤ s.nifty_pe_last_value → cfg.pe_gap < pe_price_diff s p →
      check_sell_multiplier_breach cfg (pe_sell_multiplier cfg s p) = false →
      handle_pe_trade cfg b fuel s p = some (s2, orders) →
      s2.nifty_pe_last_value =
        s.nifty_pe_last_value + cfg.pe_gap * pe_sell_multiplier cfg s p) ∧
    (¬ s.nifty_ce_last_value ≤ p → cfg.ce_gap < ce_price_diff s p →
      check_sell_multiplier_breach cfg (ce_sell_multiplier cfg s p) = false →
      handle_ce_trade cfg b fuel s p = some (s2, orders) →
      s2.nifty_ce_last_value =
        s.nifty_ce_last_value - cfg.ce_gap * ce_sell_multiplier cfg s p) :=
  ⟨fun h1 h2 h3 hres =>
    (handle_pe_trade_advance cfg b fuel s p s2 orders h1 h2 h3 hres).1,
   fun h1 h2 h3 hres =>
    (handle_ce_trade_advance cfg b fuel s p s2 orders h1 h2 h3 hres).1⟩

/-- `stA` after the PE reference advanced to 24525 with the flags clear
(the strike search found nothing, so no flag was set). -/
def stC : State :=
  { nifty_pe_last_value := 24525, nifty_ce_last_value := 24500,
    pe_reset_gap_flag := false, ce_reset_gap_flag := false }

/-- C3 witness: tick 24530 from reference 24500 with an empty instrument
lookup — the strike search fails, yet the reference advanced to 24525. -/
theorem C3_witness :
    stC.nifty_pe_last_value =
      stA.nifty_pe_last_value + cfgA.pe_gap * pe_sell_multiplier cfgA stA 24530 :=
  (C3_advance_no_rollback cfgA brokerNone 10 stA 24530 stC []).1
    (by norm_num [stA])
    (by norm_num [pe_price_diff, pyRound, cfgA, stA])
    (by norm_num [check_sell_multiplier_breach, pe_sell_multiplier, pe_price_diff,
      pyRound, pyInt, cfgA, stA])
    (by norm_num [handle_pe_trade, pe_price_diff, pe_sell_multiplier, pyRound,
      pyInt, check_sell_multiplier_breach, strikeSearch, cfgA, stA, stC, brokerNone])

/-- The PE trigger fires iff the price is strictly above the reference
and the rounded difference strictly exceeds the gap. -/
theorem pe_trigger_fired_iff (cfg : Config) (s : State) (p : ℚ) :
    pe_trigger_fired cfg s p = true ↔
      (s.nifty_pe_last_value < p ∧ cfg.pe_gap < pe_price_diff s p) := by
  unfold pe_trigger_fired
  split
  · rename_i h
    simp [not_lt.mpr h]
  · rename_i h
    simp [not_le.mp h]

/-- The CE trigger fires iff the price is strictly below the reference
and the rounded difference strictly exceeds the gap. -/
theorem ce_trigger_fired_iff (cfg : Config) (s : State) (p : ℚ) :
    ce_trigger_fired cfg s p = true ↔
      (p < s.nifty_ce_last_value ∧ cfg.ce_gap < ce_price_diff s p) := by
  unfold ce_trigger_fired
  split
  · rename_i h
    simp [not_lt.mpr h]
  · rename_i h
    simp [not_le.mp h]

/-- C4: the PE trigger fires iff `currentPrice > referencePrice` and the
rounded difference exceeds `peGap`; it never fires when
`currentPrice ≤ referencePrice`; once fired (with a positive gap) the
multiplier is exactly `floor(priceDiff / peGap)` and at least 1;
symmetric for CE with `referencePrice − currentPrice` and `ceGap`. -/
theorem C4_trigger_and_multiplier (cfg : Config) (s : State) (p : ℚ) :
    (pe_trigger_fired cfg s p = true ↔
      (s.nifty_pe_last_value < p ∧ cfg.pe_gap < pe_price_diff s p)) ∧
    (p ≤ s.nifty_pe_last_value → pe_trigger_fired cfg s p = false) ∧
    (0 < cfg.pe_gap → pe_trigger_fired cfg s p = true →
      pe_sell_multiplier cfg s p = ⌊pe_price_diff s p / cfg.pe_gap⌋ ∧
      1 ≤ pe_sell_multiplier cfg s p) ∧
    (ce_trigger_fired cfg s p = true ↔
      (p < s.nifty_ce_last_value ∧ cfg.ce_gap < ce_price_diff s p)) ∧
    (s.nifty_ce_last_value ≤ p → ce_trigger_fired cfg s p = false) ∧
    (0 < cfg.ce_gap → ce_trigger_fired cfg s p = true →
      ce_sell_multiplier cfg s p = ⌊ce_price_diff s p / cfg.ce_gap⌋ ∧
      1 ≤ ce_sell_multiplier cfg s p) := by
  refine ⟨pe_trigger_fired_iff cfg s p, ?_, ?_, ce_trigger_fired_iff cfg s p, ?_, ?_⟩
  · intro h
    simp [pe_trigger_fired, h]
  · intro hg hf
    have hd := ((pe_trigger_fired_iff cfg s p).mp hf).2
    have hnn : 0 ≤ pe_price_diff s p / cfg.pe_gap :=
      div_nonneg (le_of_lt (lt_trans hg hd)) (le_of_lt hg)
    exact ⟨pyInt_eq_floor _ hnn, pyInt_div_ge_one _ _ hg hd⟩
  · intro h
    simp [ce_trigger_fired, h]
  · intro hg hf
    have hd := ((ce_trigger_fired_iff cfg s p).mp hf).2
    have hnn : 0 ≤ ce_price_diff s p / cfg.ce_gap :=
      div_nonneg (le_of_lt (lt_trans hg hd)) (le_of_lt hg)
    exact ⟨pyInt_eq_floor _ hnn, pyInt_div_ge_one _ _ hg hd⟩

/-- C4 witness: the scenario reference 24500, peGap 25, tick 24530 —
the trigger fires and the multiplier is `⌊30 / 25⌋`, at least 1. -/
theorem C4_witness :
    pe_sell_multiplier cfgA stA 24530 = ⌊pe_price_diff stA 24530 / cfgA.pe_gap⌋ ∧
    1 ≤ pe_sell_multiplier cfgA stA 24530 :=
  (C4_trigger_and_multiplier cfgA stA 24530).2.2.1
    (by norm_num [cfgA])
    (by norm_num [pe_trigger_fired, pe_price_diff, pyRound, cfgA, stA])

/-- C5: the RiskGate rejects iff the multiplier strictly exceeds
`sellMultiplierThreshold` (a multiplier equal to the threshold passes),
and a rejection returns the state untouched — in particular it never
mutates either armed flag. -/
theorem C5_risk_gate (cfg : Config) (b : Broker) (fuel : ℕ) (s : State)
    (p : ℚ) (m : ℤ) :
    (check_sell_multiplier_breach cfg m = true ↔
      cfg.sell_multiplier_threshold < (m : ℚ)) ∧
    ((m : ℚ) = cfg.sell_multiplier_threshold →
      check_sell_multiplier_breach cfg m = false) ∧
    (¬ p ≤ s.nifty_pe_last_value → cfg.pe_gap < pe_price_diff s p →
      check_sell_multiplier_breach cfg (pe_sell_multiplier cfg s p) = true →
      ∀ s2 orders, handle_pe_trade cfg b fuel s p = some (s2, orders) →
        s2.pe_reset_gap_flag = s.pe_reset_gap_flag ∧
        s2.ce_reset_gap_flag = s.ce_reset_gap_flag) ∧
    (¬ s.nifty_ce_last_value ≤ p → cfg.ce_gap < ce_price_diff s p →
      check_sell_multiplier_breach cfg (ce_sell_multiplier cfg s p) = true →
      ∀ s2 orders, handle_ce_trade cfg b fuel s p = some (s2, orders) →
        s2.pe_reset_gap_flag = s.pe_reset_gap_flag ∧
        s2.ce_reset_gap_flag = s.ce_reset_gap_flag) := by
  refine ⟨by simp [check_sell_multiplier_breach], ?_, ?_, ?_⟩
  · intro h
    simp [check_sell_multiplier_breach, h]
  · intro h1 h2 h3 s2 orders hres
    rw [handle_pe_trade_reject cfg b fuel s p h1 h2 h3] at hres
    simp only [Option.some.injEq, Prod.mk.injEq] at hres
    rw [← hres.1]
    exact ⟨rfl, rfl⟩
  · intro h1 h2 h3 s2 orders hres
    rw [handle_ce_trade_reject cfg b fuel s p h1 h2 h3] at hres
    simp only [Option.some.injEq, Prod.mk.injEq] at hres
    rw [← hres.1]
    exact ⟨rfl, rfl⟩

/-- C5 witness: multiplier 4 against threshold 3 is rejected, and the
rejected tick at price 24600 leaves both flags untouched. -/
theorem C5_witness :
    check_sell_multiplier_breach cfgA 4 = true ∧
    stA.pe_reset_gap_flag = stA.pe_reset_gap_flag := by
  refine ⟨(C5_risk_gate cfgA brokerNone 10 stA 24600 4).1.mpr ?_, ?_⟩
  · norm_num [cfgA]
  · have h := (C5_risk_gate cfgA brokerNone 10 stA 24600
        (pe_sell_multiplier cfgA stA 24600)).2.2.1
      (by norm_num [stA])
      (by norm_num [pe_price_diff, pyRound, cfgA, stA])
      (by norm_num [check_sell_multiplier_breach, pe_sell_multiplier,
        pe_price_diff, pyRound, pyInt, cfgA, stA])
      stA []
      (by norm_num [handle_pe_trade, pe_price_diff, pe_sell_multiplier, pyRound,
        pyInt, check_sell_multiplier_breach, cfgA, stA])
    exact h.1

/-- C6: one round of the strike search — an empty lookup aborts the whole
search with no result, an acceptable premium (≥ `minPriceToSell`) returns
the instrument, and a low premium retries at `gap − lotSize`; and the
spec's scenario: start gap 200, lot size 50, minimum premium 15, first
candidate quoting 10 and second quoting 20 — the search returns the
second candidate found at gap 150. -/
theorem C6_strike_search_rounds (lookup : ℚ → Option Instrument)
    (quote : Instrument → ℚ) (min_price lot_size gap : ℚ) (fuel : ℕ) :
    (lookup gap = none →
      strikeSearch lookup quote min_price lot_size (fuel + 1) gap = some none) ∧
    (∀ inst, lookup gap = some inst → min_price ≤ quote inst →
      strikeSearch lookup quote min_price lot_size (fuel + 1) gap =
        some (some inst)) ∧
    (∀ inst, lookup gap = some inst → quote inst < min_price →
      strikeSearch lookup quote min_price lot_size (fuel + 1) gap =
        strikeSearch lookup quote min_price lot_size fuel (gap - lot_size)) ∧
    strikeSearch lookupTwo quoteTwo 15 50 2 200 =
      some (some { tradingsymbol := "B" }) := by
  refine ⟨?_, ?_, ?_, ?_⟩
  · intro h
    simp [strikeSearch, h]
  · intro inst h hq
    simp [strikeSearch, h, not_lt.mpr hq]
  · intro inst h hq
    simp [strikeSearch, h, hq]
  · have hBA : ("B" : String) ≠ "A" := by decide
    norm_num [strikeSearch, lookupTwo, quoteTwo, hBA]

/-- C6 witness: the retry rule applied at gap 200 of the scenario —
candidate `A` quotes 10 < 15, so the search continues at gap 150. -/
theorem C6_witness :
    strikeSearch lookupTwo quoteTwo 15 50 2 200 =
      strikeSearch lookupTwo quoteTwo 15 50 1 150 := by
  have h := (C6_strike_search_rounds lookupTwo quoteTwo 15 50 200 1).2.2.1
    { tradingsymbol := "A" }
    (by norm_num [lookupTwo])
    (by norm_num [quoteTwo])
  rw [h]
  norm_num

/-- C7: the strike search has no iteration bound — against a broker whose
lookup always finds an instrument quoting below the minimum premium, the
fuel-indexed loop yields no result for any amount of fuel and any
starting gap: the `while True` loop never terminates. -/
theorem C7_search_divergence (lookup : ℚ → Option Instrument)
    (quote : Instrument → ℚ) (min_price lot_size : ℚ)
    (hlow : ∀ g, ∃ inst, lookup g = some inst ∧ quote inst < min_price) :
    ∀ fuel gap, strikeSearch lookup quote min_price lot_size fuel gap = none := by
  intro fuel
  induction fuel with
  | zero =>
    intro gap
    rfl
  | succ n ih =>
    intro gap
    obtain ⟨inst, hl, hq⟩ := hlow gap
    simp only [strikeSearch, hl, if_pos hq]
    exact ih (gap - lot_size)

/-- C7 witness: the always-cheap broker (every gap finds `X` quoting 10
against minimum 15) exhausts 100 rounds of fuel from gap 200 without
producing a result. -/
theorem C7_witness :
    strikeSearch lookupCheap quoteCheap 15 50 100 200 = none :=
  C7_search_divergence lookupCheap quoteCheap 15 50
    (fun g => ⟨{ tradingsymbol := "X" }, rfl, by norm_num [quoteCheap]⟩)
    100 200

/-- Closed form of `_reset_reference_values`: each side relocates exactly
when its retracement condition holds AND its flag is set; the flags are
never written. -/
theorem reset_reference_values_eq (cfg : Config) (s : State) (p : ℚ) :
    reset_reference_values cfg s p =
      { nifty_pe_last_value :=
          if cfg.pe_reset_gap < s.nifty_pe_last_value - p ∧
              s.pe_reset_gap_flag = true
          then p + cfg.pe_reset_gap else s.nifty_pe_last_value,
        nifty_ce_last_value :=
          if cfg.ce_reset_gap < p - s.nifty_ce_last_value ∧
              s.ce_reset_gap_flag = true
          then p - cfg.ce_reset_gap else s.nifty_ce_last_value,
        pe_reset_gap_flag := s.pe_reset_gap_flag,
        ce_reset_gap_flag := s.ce_reset_gap_flag } := by
  by_cases hpe : cfg.pe_reset_gap < s.nifty_pe_last_value - p ∧
      s.pe_reset_gap_flag = true <;>
    by_cases hce : cfg.ce_reset_gap < p - s.nifty_ce_last_value ∧
        s.ce_reset_gap_flag = true <;>
    simp [reset_reference_values, hpe, hce]

/-- C8: the per-tick reset relocates the PE reference to
`currentPrice + peResetGap` exactly when the retracement exceeds
`peResetGap` AND the side is armed, never changes anything on an unarmed
side, never writes the flags, and is symmetric for CE with
`currentPrice − ceResetGap`; including the spec's scenario — armed PE
reference 24550, reset gap 50, price 24480 relocates to 24530. -/
theorem C8_reset_semantics (cfg : Config) (s : State) (p : ℚ) :
    ((cfg.pe_reset_gap < s.nifty_pe_last_value - p ∧ s.pe_reset_gap_flag = true) →
      (reset_reference_values cfg s p).nifty_pe_last_value =
        p + cfg.pe_reset_gap) ∧
    (¬ (cfg.pe_reset_gap < s.nifty_pe_last_value - p ∧ s.pe_reset_gap_flag = true) →
      (reset_reference_values cfg s p).nifty_pe_last_value =
        s.nifty_pe_last_value) ∧
    ((cfg.ce_reset_gap < p - s.nifty_ce_last_value ∧ s.ce_reset_gap_flag = true) →
      (reset_reference_values cfg s p).nifty_ce_last_value =
        p - cfg.ce_reset_gap) ∧
    (¬ (cfg.ce_reset_gap < p - s.nifty_ce_last_value ∧ s.ce_reset_gap_flag = true) →
      (reset_reference_values cfg s p).nifty_ce_last_value =
        s.nifty_ce_last_value) ∧
    (reset_reference_values cfg s p).pe_reset_gap_flag = s.pe_reset_gap_flag ∧
    (reset_reference_values cfg s p).ce_reset_gap_flag = s.ce_reset_gap_flag ∧
    (reset_reference_values cfgA stReset 24480).nifty_pe_last_value = 24530 := by
  rw [reset_reference_values_eq]
  refine ⟨fun h => ?_, fun h => ?_, fun h => ?_, fun h => ?_, rfl, rfl, ?_⟩
  · simp [h]
  · simp [h]
  · simp [h]
  · simp [h]
  · rw [reset_reference_values_eq]
    norm_num [cfgA, stReset]

/-- C8 witness: the unarmed CE side of the scenario state is untouched by
the reset pass. -/
theorem C8_witness :
    (reset_reference_values cfgA stReset 24480).nifty_ce_last_value =
      stReset.nifty_ce_last_value :=
  (C8_reset_semantics cfgA stReset 24480).2.2.2.1
    (by norm_num [cfgA, stReset])

/-- C9: over every tick sequence the strategy processes, a reset flag
that is set never becomes clear again — no operation (the reset pass
included) has a transition from armed back to unarmed. -/
theorem C9_armed_is_permanent (cfg : Config) (b : Broker) (fuel : ℕ)
    (ps : List ℚ) (s s2 : State)
    (hres : run_ticks cfg b fuel s ps = some s2) :
    (s.pe_reset_gap_flag = true → s2.pe_reset_gap_flag = true) ∧
    (s.ce_reset_gap_flag = true → s2.ce_reset_gap_flag = true) :=
  run_ticks_flag_mono cfg b fuel ps s s2 hres

/-- C9 witness: a fully armed state stays armed across a processed tick. -/
theorem C9_witness :
    stRun.pe_reset_gap_flag = true ∧ stRun.ce_reset_gap_flag = true := by
  have hres : run_ticks cfgA brokerNone 10 stRun [24500] = some stRun := by
    norm_num [run_ticks, on_ticks_update, handle_pe_trade, handle_ce_trade,
      reset_reference_values, cfgA, stRun]
  exact ⟨(C9_armed_is_permanent cfgA brokerNone 10 [24500] stRun stRun hres).1 rfl,
    (C9_armed_is_permanent cfgA brokerNone 10 [24500] stRun stRun hres).2 rfl⟩

/-- C10: on any tick whose trigger fires (positive gap), every state the
handler returns keeps the PE reference at most `currentPrice + 1/2` —
the advance `gap * int(round(diff)/gap)` is bounded by `round(diff)`,
itself at most `diff + 1/2`; symmetric for CE, whose new reference stays
at least `currentPrice − 1/2`. -/
theorem C10_advance_stays_near_price (cfg : Config) (b : Broker) (fuel : ℕ)
    (s : State) (p : ℚ) (s2 : State) (orders : List Order) :
    (0 < cfg.pe_gap → ¬ p ≤ s.nifty_pe_last_value →
      cfg.pe_gap < pe_price_diff s p →
      handle_pe_trade cfg b fuel s p = some (s2, orders) →
      s2.nifty_pe_last_value ≤ p + 1/2) ∧
    (0 < cfg.ce_gap → ¬ s.nifty_ce_last_value ≤ p →
      cfg.ce_gap < ce_price_diff s p →
      handle_ce_trade cfg b fuel s p = some (s2, orders) →
      p - 1/2 ≤ s2.nifty_ce_last_value) := by
  constructor
  · intro hg h1 h2 hres
    cases hbr : check_sell_multiplier_breach cfg (pe_sell_multiplier cfg s p) with
    | true =>
      rw [handle_pe_trade_reject cfg b fuel s p h1 h2 hbr] at hres
      simp only [Option.some.injEq, Prod.mk.injEq] at hres
      rw [← hres.1]
      have := not_le.mp h1
      linarith
    | false =>
      have hadv :=
        (handle_pe_trade_advance cfg b fuel s p s2 orders h1 h2 hbr hres).1
      have hpd0 : 0 ≤ pe_price_diff s p := le_of_lt (lt_trans hg h2)
      have hmul : cfg.pe_gap * (pe_sell_multiplier cfg s p : ℚ) ≤
          pe_price_diff s p := pyInt_div_mul_le _ _ hg hpd0
      have hrd : pe_price_diff s p ≤ (p - s.nifty_pe_last_value) + 1/2 :=
        pyRound_le (p - s.nifty_pe_last_value)
      rw [hadv]
      linarith
  · intro hg h1 h2 hres
    cases hbr : check_sell_multiplier_breach cfg (ce_sell_multiplier cfg s p) with
    | true =>
      rw [handle_ce_trade_reject cfg b fuel s p h1 h2 hbr] at hres
      simp only [Option.some.injEq, Prod.mk.injEq] at hres
      rw [← hres.1]
      have := not_le.mp h1
      linarith
    | false =>
      have hadv :=
        (handle_ce_trade_advance cfg b fuel s p s2 orders h1 h2 hbr hres).1
      have hpd0 : 0 ≤ ce_price_diff s p := le_of_lt (lt_trans hg h2)
      have hmul : cfg.ce_gap * (ce_sell_multiplier cfg s p : ℚ) ≤
          ce_price_diff s p := pyInt_div_mul_le _ _ hg hpd0
      have hrd : ce_price_diff s p ≤ (s.nifty_ce_last_value - p) + 1/2 :=
        pyRound_le (s.nifty_ce_last_value - p)
      rw [hadv]
      linarith

/-- C10 witness: the advanced reference 24525 of the 24530-tick stays
below 24530.5. -/
theorem C10_witness : stC.nifty_pe_last_value ≤ 24530 + 1/2 :=
  (C10_advance_stays_near_price cfgA brokerNone 10 stA 24530 stC []).1
    (by norm_num [cfgA])
    (by norm_num [stA])
    (by norm_num [pe_price_diff, pyRound, cfgA, stA])
    (by norm_num [handle_pe_trade, pe_price_diff, pe_sell_multiplier, pyRound,
      pyInt, check_sell_multiplier_breach, strikeSearch, cfgA, stA, stC, brokerNone])
